import Mathlib

/-!
Shallow embedding of `src/packages/MacWindowSwitch/scripts/list-windows.py`.

The script queries the macOS window server (via the Quartz binding) for a
list of window dictionaries, filters and formats them, and prints a
fixed-width report.  We model each Python dictionary as a `WindowRecord`
whose fields are `Option`-valued (a key may be absent), Python string
operations as code-point-level operations on `String.data`, and the
printing loop as a fold accumulating the printed row lines and the counter.
-/

namespace ListWindows

/-- One entry of the list returned by `CGWindowListCopyWindowInfo`.
Field names follow the dictionary keys read by the script; `none` models an
absent key (the script supplies defaults through `dict.get`). -/
structure WindowRecord where
  kCGWindowOwnerName : Option String
  kCGWindowName : Option String
  kCGWindowNumber : Option Nat
  kCGWindowOwnerPID : Option Int
deriving Repr, DecidableEq

/-- Python `len(s)`: the number of code points of `s`. -/
def pyLen (s : String) : Nat := s.data.length

/-- Python `s.lower()` (restricted to ASCII case mapping, the only case the
script's data exercises). -/
def pyLower (s : String) : String := String.mk (s.data.map Char.toLower)

/-- `needle` occurs as a contiguous sublist of `hay`. -/
def charsContain (needle hay : List Char) : Bool :=
  match hay with
  | [] => List.isEmpty needle
  | c :: rest => List.isPrefixOf needle (c :: rest) || charsContain needle rest

/-- Python `needle in hay` for strings: substring containment. -/
def pyIn (needle hay : String) : Bool := charsContain needle.data hay.data

/-- Python `s[:n]`: the first `n` code points of `s`. -/
def pySlice (s : String) (n : Nat) : String := String.mk (List.take n s.data)

/-- Python format spec `<w` : left-justify in a field of minimum width `w`. -/
def padRight (s : String) (w : Nat) : String :=
  s ++ String.mk (List.replicate (w - pyLen s) ' ')

/-- Python format spec `>w` (and `wd` for integers): right-justify in a
field of minimum width `w`. -/
def padLeft (s : String) (w : Nat) : String :=
  String.mk (List.replicate (w - pyLen s) ' ') ++ s

/-- Python truthiness of `app_filter` in `if app_filter and ...`:
`None` and the empty string are falsy. -/
def filterTruthy (f : Option String) : Bool :=
  match f with
  | none => false
  | some s => !(s == "")

/-- `title[:37] + "..." if len(title) > 40 else title`. -/
def truncateTitle (title : String) : String :=
  if pyLen title > 40 then pySlice title 37 ++ "..." else title

/-- The f-string of the per-row `print`:
`f"{app:<25s} {title:<40s} {wid:8d} {pid:7d}"`. -/
def formatRow (app title : String) (wid : Nat) (pid : Int) : String :=
  padRight app 25 ++ " " ++ padRight title 40 ++ " " ++
    padLeft (toString wid) 8 ++ " " ++ padLeft (toString pid) 7

/-- One iteration of the `for w in windows` loop: `none` when the record is
skipped by a `continue`, `some line` when a row is printed for it. -/
def recordRow (app_filter : Option String) (w : WindowRecord) : Option String :=
  let app := Option.getD w.kCGWindowOwnerName ""
  let title := Option.getD w.kCGWindowName "Untitled"
  let wid := Option.getD w.kCGWindowNumber 0
  let pid := Option.getD w.kCGWindowOwnerPID 0
  if filterTruthy app_filter && !(pyIn (pyLower (Option.getD app_filter "")) (pyLower app)) then
    none
  else if app == "" || wid == 0 then
    none
  else
    some (formatRow app (truncateTitle title) wid pid)

/-- The loop body acting on the accumulated `(printed rows, count)`. -/
def loopStep (app_filter : Option String) (acc : List String × Nat)
    (w : WindowRecord) : List String × Nat :=
  match recordRow app_filter w with
  | none => acc
  | some row => (acc.1 ++ [row], acc.2 + 1)

/-- The whole loop: printed row lines together with the final `count`. -/
def runLoop (app_filter : Option String) (windows : List WindowRecord) :
    List String × Nat :=
  List.foldl (loopStep app_filter) ([], 0) windows

/-- `f"{'App':<25s} {'Window Title':<40s} {'ID':>8s} {'PID':>7s}"`. -/
def headerLine : String :=
  padRight "App" 25 ++ " " ++ padRight "Window Title" 40 ++ " " ++
    padLeft "ID" 8 ++ " " ++ padLeft "PID" 7

/-- `"-" * 85`. -/
def sepLine : String := String.mk (List.replicate 85 '-')

/-- The lines printed by the two trailing `print` calls guarded by
`if count > 0`. -/
def exampleBlock : List String :=
  ["", "Example usage:",
   "  mac-window-switch activate --window-id <ID> --pid <PID>"]

/-- `list_windows(app_filter)`: every line the function writes to stdout,
as a function of the record list the Quartz query returns.  A `print` of a
string beginning with a newline contributes an empty line followed by the
text. -/
def list_windows (app_filter : Option String) (windows : List WindowRecord) :
    List String :=
  let res := runLoop app_filter windows
  headerLine :: sepLine :: res.1 ++
    ["", "Total windows: " ++ toString res.2] ++
    (if res.2 > 0 then exampleBlock else [])

/-- The two lines printed by the `except ImportError` handler. -/
def quartzErrorLines : List String :=
  ["Error: Quartz module not available.",
   "This script requires PyObjC: pip3 install pyobjc-framework-Quartz"]

/-- The whole process: if the Quartz import fails the handler prints its
message and calls `sys.exit(1)` before any query; otherwise `main` runs
`list_windows` and the process ends with status 0.  Result: (stdout lines,
exit code). -/
def program (quartzAvailable : Bool) (app_filter : Option String)
    (os_windows : List WindowRecord) : List String × Nat :=
  if quartzAvailable then (list_windows app_filter os_windows, 0)
  else (quartzErrorLines, 1)

/- Sample records used by witnesses. -/

/-- The record of spec Scenario B. -/
def wSafari : WindowRecord :=
  ⟨some "Safari", some "Example", some 42, some 1234⟩

/-- A record with an absent owner name. -/
def wNoOwner : WindowRecord := ⟨none, some "T", some 7, some 9⟩

/-- A record with window id 0 (spec Scenario E). -/
def wZeroId : WindowRecord := ⟨some "X", some "T", some 0, some 9⟩

/-- A 50-character title (spec Scenario F). -/
def tLong : String := "ABCDEFGHIJKLMNOPQRSTUVWXYZabcdefghijklmnopqrstuvwx"

/-- A record carrying the 50-character title. -/
def wLong : WindowRecord := ⟨some "App1", some tLong, some 5, some 6⟩

/-- A record whose owner application name is 26 characters long. -/
def wWide : WindowRecord := ⟨some "ABCDEFGHIJKLMNOPQRSTUVWXYZ", some "T", some 1, some 1⟩

/-- A record with an absent owner pid. -/
def wNoPid : WindowRecord := ⟨some "Safari", some "Example", some 42, none⟩

/-- The loop's keep/skip decision as a function of the (defaulted) owner
name and window id, the only record fields the two `continue` tests read. -/
def keepRecord (f : Option String) (app : String) (wid : Nat) : Bool :=
  !(filterTruthy f && !(pyIn (pyLower (Option.getD f "")) (pyLower app))) &&
    !(app == "" || wid == 0)

/- Helper lemmas. -/

theorem pyLen_append (s t : String) : pyLen (s ++ t) = pyLen s + pyLen t := by
  simp [pyLen, String.data_append]

theorem pyLen_mk (l : List Char) : pyLen (String.mk l) = l.length := rfl

theorem pyLen_padRight (s : String) (w : Nat) :
    pyLen (padRight s w) = max w (pyLen s) := by
  simp only [padRight, pyLen, String.data_append, List.length_append,
    List.length_replicate]
  omega

theorem pyLen_padLeft (s : String) (w : Nat) :
    pyLen (padLeft s w) = max w (pyLen s) := by
  simp only [padLeft, pyLen, String.data_append, List.length_append,
    List.length_replicate]
  omega

theorem pyLen_pySlice (s : String) (n : Nat) :
    pyLen (pySlice s n) = min n (pyLen s) := by
  simp only [pySlice, pyLen, List.length_take]

theorem pyLen_truncateTitle_of_gt (t : String) (h : pyLen t > 40) :
    pyLen (truncateTitle t) = 40 := by
  rw [truncateTitle, if_pos h, pyLen_append, pyLen_pySlice]
  have h3 : pyLen "..." = 3 := by decide
  omega

theorem pyLen_truncateTitle_le (t : String) : pyLen (truncateTitle t) ≤ 40 := by
  by_cases h : pyLen t > 40
  · rw [pyLen_truncateTitle_of_gt t h]
  · rw [truncateTitle, if_neg h]
    omega

theorem pyLen_formatRow (app title : String) (wid : Nat) (pid : Int) :
    pyLen (formatRow app title wid pid) =
      max 25 (pyLen app) + 1 + max 40 (pyLen title) + 1 +
        max 8 (pyLen (toString wid)) + 1 + max 7 (pyLen (toString pid)) := by
  rw [formatRow]
  rw [pyLen_append, pyLen_append, pyLen_append, pyLen_append, pyLen_append,
    pyLen_append, pyLen_padRight, pyLen_padRight, pyLen_padLeft, pyLen_padLeft]
  have : pyLen " " = 1 := by decide
  omega

theorem pyLen_formatRow_ge (app title : String) (wid : Nat) (pid : Int) :
    83 ≤ pyLen (formatRow app title wid pid) := by
  rw [pyLen_formatRow]
  omega

/-- Inversion of the loop body: a printed row passes the app filter, has a
non-empty owner name and a non-zero window id, and is the format string of
the record's (defaulted) fields with the title truncated. -/
theorem recordRow_some (f : Option String) (w : WindowRecord) (row : String)
    (h : recordRow f w = some row) :
    Option.getD w.kCGWindowOwnerName "" ≠ "" ∧
    Option.getD w.kCGWindowNumber 0 ≠ 0 ∧
    (filterTruthy f = true →
      pyIn (pyLower (Option.getD f "")) (pyLower (Option.getD w.kCGWindowOwnerName "")) = true) ∧
    row = formatRow (Option.getD w.kCGWindowOwnerName "")
      (truncateTitle (Option.getD w.kCGWindowName "Untitled"))
      (Option.getD w.kCGWindowNumber 0) (Option.getD w.kCGWindowOwnerPID 0) := by
  simp only [recordRow] at h
  split at h
  · exact absurd h (by simp)
  · split at h
    · exact absurd h (by simp)
    · next hc1 hc2 =>
      simp only [Bool.and_eq_true, not_and, Bool.not_eq_true, Bool.not_eq_false,
        Bool.not_eq_false', Bool.or_eq_true, beq_iff_eq, not_or] at hc1 hc2
      exact ⟨hc2.1, hc2.2, hc1, (Option.some.inj h).symm⟩

/-- Construction: a record with non-empty owner, non-zero id that passes the
filter produces exactly its formatted row. -/
theorem recordRow_eq_some (f : Option String) (w : WindowRecord)
    (ha : Option.getD w.kCGWindowOwnerName "" ≠ "")
    (hn : Option.getD w.kCGWindowNumber 0 ≠ 0)
    (hf : filterTruthy f = true →
      pyIn (pyLower (Option.getD f "")) (pyLower (Option.getD w.kCGWindowOwnerName "")) = true) :
    recordRow f w = some (formatRow (Option.getD w.kCGWindowOwnerName "")
      (truncateTitle (Option.getD w.kCGWindowName "Untitled"))
      (Option.getD w.kCGWindowNumber 0) (Option.getD w.kCGWindowOwnerPID 0)) := by
  simp only [recordRow]
  have h1 : (filterTruthy f &&
      !(pyIn (pyLower (Option.getD f "")) (pyLower (Option.getD w.kCGWindowOwnerName "")))) = false := by
    cases hft : filterTruthy f
    · simp
    · simp [hf hft]
  have h2 : (Option.getD w.kCGWindowOwnerName "" == "" ||
      Option.getD w.kCGWindowNumber 0 == 0) = false := by
    simp [ha, hn]
  simp only [h1, h2, Bool.false_eq_true, if_false]

/-- A record with an empty (or absent) owner name, or a zero (or absent)
window id, is skipped. -/
theorem recordRow_invalid (f : Option String) (w : WindowRecord)
    (h : Option.getD w.kCGWindowOwnerName "" = "" ∨ Option.getD w.kCGWindowNumber 0 = 0) :
    recordRow f w = none := by
  simp only [recordRow]
  split
  · rfl
  · rw [if_pos]
    rcases h with h | h
    · simp [h]
    · simp [h]

/-- A record whose owner name fails a truthy app filter is skipped. -/
theorem recordRow_filtered (f : Option String) (w : WindowRecord)
    (hft : filterTruthy f = true)
    (h : pyIn (pyLower (Option.getD f "")) (pyLower (Option.getD w.kCGWindowOwnerName "")) = false) :
    recordRow f w = none := by
  simp only [recordRow]
  rw [if_pos]
  rw [hft, h]
  rfl

/-- The loop is the fold of `loopStep`; its accumulated rows are the
`filterMap` of `recordRow` and its counter is their number. -/
theorem foldl_loopStep (f : Option String) (ws : List WindowRecord) :
    ∀ acc : List String × Nat,
      List.foldl (loopStep f) acc ws =
        (acc.1 ++ List.filterMap (recordRow f) ws,
         acc.2 + (List.filterMap (recordRow f) ws).length) := by
  induction ws with
  | nil => intro acc; simp
  | cons w ws ih =>
    intro acc
    rw [List.foldl_cons, List.filterMap_cons]
    cases hw : recordRow f w with
    | none =>
      rw [show loopStep f acc w = acc from by rw [loopStep, hw]]
      exact ih acc
    | some r =>
      rw [show loopStep f acc w = (acc.1 ++ [r], acc.2 + 1) from by rw [loopStep, hw]]
      rw [ih]
      simp only [List.append_assoc, List.singleton_append, List.length_cons]
      exact Prod.ext rfl (by omega)

theorem runLoop_eq (f : Option String) (ws : List WindowRecord) :
    runLoop f ws = (List.filterMap (recordRow f) ws,
      (List.filterMap (recordRow f) ws).length) := by
  rw [runLoop, foldl_loopStep]
  simp

/-- Whether `recordRow` keeps a record depends only on the filter and the
record's (defaulted) owner name and window id. -/
theorem recordRow_isSome_eq (f : Option String) (w : WindowRecord) :
    Option.isSome (recordRow f w) =
      keepRecord f (Option.getD w.kCGWindowOwnerName "")
        (Option.getD w.kCGWindowNumber 0) := by
  cases h1 : (filterTruthy f &&
      !(pyIn (pyLower (Option.getD f "")) (pyLower (Option.getD w.kCGWindowOwnerName "")))) with
  | true => simp [recordRow, keepRecord, h1]
  | false =>
    cases h2 : (Option.getD w.kCGWindowOwnerName "" == "" ||
        Option.getD w.kCGWindowNumber 0 == 0) with
    | true => simp [recordRow, keepRecord, h1, h2]
    | false => simp [recordRow, keepRecord, h1, h2]

/- Claim theorems. -/

/-- Claim C1: for every input record set and every optional app filter, every
row printed by list_windows comes from a record whose (defaulted) owner
application name is non-empty and whose window id is non-zero, and a record
with an empty owner name or window id 0 never produces a row. -/
theorem printed_rows_are_valid (f : Option String) (ws : List WindowRecord) :
    (∀ row ∈ (runLoop f ws).1, ∃ w ∈ ws, recordRow f w = some row ∧
      Option.getD w.kCGWindowOwnerName "" ≠ "" ∧
      Option.getD w.kCGWindowNumber 0 ≠ 0) ∧
    (∀ w : WindowRecord,
      (Option.getD w.kCGWindowOwnerName "" = "" ∨ Option.getD w.kCGWindowNumber 0 = 0) →
      recordRow f w = none) := by
  constructor
  · intro row hrow
    rw [runLoop_eq] at hrow
    simp only [List.mem_filterMap] at hrow
    obtain ⟨w, hw, hrec⟩ := hrow
    obtain ⟨ha, hn, -, -⟩ := recordRow_some f w row hrec
    exact ⟨w, hw, hrec, ha, hn⟩
  · intro w h
    exact recordRow_invalid f w h

/-- Witness for C1 at a concrete record set: the Safari record's row is
printed and the zero-id record is skipped. -/
theorem printed_rows_are_valid_witness :
    (∃ w ∈ [wSafari, wNoOwner, wZeroId],
      recordRow none w = some (formatRow "Safari" "Example" 42 1234) ∧
      Option.getD w.kCGWindowOwnerName "" ≠ "" ∧
      Option.getD w.kCGWindowNumber 0 ≠ 0) ∧
    recordRow none wZeroId = none :=
  ⟨(printed_rows_are_valid none [wSafari, wNoOwner, wZeroId]).1
      (formatRow "Safari" "Example" 42 1234) (by decide),
   (printed_rows_are_valid none [wSafari, wNoOwner, wZeroId]).2 wZeroId (by decide)⟩

/-- Claim C2: the count printed in the final Total-windows line equals the
number of per-record row lines printed in the same run. -/
theorem total_equals_row_count (f : Option String) (ws : List WindowRecord) :
    (runLoop f ws).2 = (runLoop f ws).1.length ∧
    ("Total windows: " ++ toString (runLoop f ws).1.length) ∈ list_windows f ws := by
  have h := runLoop_eq f ws
  constructor
  · rw [h]
  · simp [list_windows, h]

/-- Claim C3: for every printed row, a raw title longer than 40 characters is
printed as its first 37 characters followed by "..." (so exactly 40
characters), and otherwise the title is printed unchanged, left-justified in
the 40-character column. -/
theorem printed_title_truncation (f : Option String) (w : WindowRecord) (row : String)
    (h : recordRow f w = some row) :
    (pyLen (Option.getD w.kCGWindowName "Untitled") > 40 →
      truncateTitle (Option.getD w.kCGWindowName "Untitled") =
        pySlice (Option.getD w.kCGWindowName "Untitled") 37 ++ "..." ∧
      pyLen (truncateTitle (Option.getD w.kCGWindowName "Untitled")) = 40) ∧
    (pyLen (Option.getD w.kCGWindowName "Untitled") ≤ 40 →
      truncateTitle (Option.getD w.kCGWindowName "Untitled") =
        Option.getD w.kCGWindowName "Untitled" ∧
      pyLen (padRight (Option.getD w.kCGWindowName "Untitled") 40) = 40) ∧
    row = formatRow (Option.getD w.kCGWindowOwnerName "")
      (truncateTitle (Option.getD w.kCGWindowName "Untitled"))
      (Option.getD w.kCGWindowNumber 0) (Option.getD w.kCGWindowOwnerPID 0) := by
  obtain ⟨-, -, -, hrow⟩ := recordRow_some f w row h
  refine ⟨?_, ?_, hrow⟩
  · intro hgt
    exact ⟨by rw [truncateTitle, if_pos hgt], pyLen_truncateTitle_of_gt _ hgt⟩
  · intro hle
    constructor
    · rw [truncateTitle, if_neg (by omega)]
    · rw [pyLen_padRight]
      omega

/-- Witness for C3 at the 50-character title of spec Scenario F. -/
theorem printed_title_truncation_witness :
    truncateTitle tLong = pySlice tLong 37 ++ "..." ∧
    pyLen (truncateTitle tLong) = 40 :=
  (printed_title_truncation none wLong
    (formatRow "App1" (truncateTitle tLong) 5 6) (by decide)).1 (by decide)

/-- Claim C4: with a non-empty app filter, every printed row's owner name
contains the filter case-insensitively, and a record whose owner name does
not contain it is excluded. -/
theorem app_filter_respected (s : String) (ws : List WindowRecord) (hs : s ≠ "") :
    (∀ row ∈ (runLoop (some s) ws).1, ∃ w ∈ ws, recordRow (some s) w = some row ∧
      pyIn (pyLower s) (pyLower (Option.getD w.kCGWindowOwnerName "")) = true) ∧
    (∀ w : WindowRecord,
      pyIn (pyLower s) (pyLower (Option.getD w.kCGWindowOwnerName "")) = false →
      recordRow (some s) w = none) := by
  have hft : filterTruthy (some s) = true := by
    simp only [filterTruthy, Bool.not_eq_true']
    simpa using hs
  constructor
  · intro row hrow
    rw [runLoop_eq] at hrow
    simp only [List.mem_filterMap] at hrow
    obtain ⟨w, hw, hrec⟩ := hrow
    obtain ⟨-, -, hin, -⟩ := recordRow_some (some s) w row hrec
    exact ⟨w, hw, hrec, hin hft⟩
  · intro w hnot
    exact recordRow_filtered (some s) w hft hnot

/-- Witness for C4: the lowercase filter "safari" keeps the Safari record
(spec Scenario C) and excludes the record owned by "X". -/
theorem app_filter_respected_witness :
    (∃ w ∈ [wSafari], recordRow (some "safari") w =
        some (formatRow "Safari" "Example" 42 1234) ∧
      pyIn (pyLower "safari") (pyLower (Option.getD w.kCGWindowOwnerName "")) = true) ∧
    recordRow (some "safari") wZeroId = none :=
  ⟨(app_filter_respected "safari" [wSafari] (by decide)).1
      (formatRow "Safari" "Example" 42 1234) (by decide),
   (app_filter_respected "safari" [wSafari] (by decide)).2 wZeroId (by decide)⟩

/-- Claim C5: the example-usage block is printed iff at least one record
survives the filters; with zero survivors no error occurs, the report simply
shows a zero count and omits the example line. -/
theorem example_block_iff_nonzero (f : Option String) (ws : List WindowRecord) :
    ("Example usage:" ∈ list_windows f ws ↔ 0 < (runLoop f ws).2) ∧
    ((runLoop f ws).2 = 0 →
      list_windows f ws = [headerLine, sepLine, "", "Total windows: 0"]) := by
  have hzero : (runLoop f ws).2 = 0 →
      list_windows f ws = [headerLine, sepLine, "", "Total windows: 0"] := by
    intro h0
    have h := runLoop_eq f ws
    have hlen : (List.filterMap (recordRow f) ws).length = 0 := by
      rw [h] at h0
      exact h0
    have hnil : List.filterMap (recordRow f) ws = [] :=
      List.eq_nil_of_length_eq_zero hlen
    have hstr : ("Total windows: " ++ toString (0 : Nat)) = "Total windows: 0" := by
      decide
    simp [list_windows, h, hnil, hstr]
  refine ⟨⟨?_, ?_⟩, hzero⟩
  · intro hmem
    by_contra hnot
    have h0 : (runLoop f ws).2 = 0 := by omega
    rw [hzero h0] at hmem
    exact absurd hmem (by decide)
  · intro hpos
    simp only [list_windows, if_pos hpos, exampleBlock]
    simp

/-- Witness for C5: with the Safari record the block is present iff the count
is positive, and with no records the report is the bare zero-count output. -/
theorem example_block_iff_nonzero_witness :
    ("Example usage:" ∈ list_windows none [wSafari] ↔ 0 < (runLoop none [wSafari]).2) ∧
    list_windows none [] = [headerLine, sepLine, "", "Total windows: 0"] :=
  ⟨(example_block_iff_nonzero none [wSafari]).1,
   (example_block_iff_nonzero none []).2 (by decide)⟩

/-- Claim C6: when the Quartz binding cannot be imported the process prints
the explanatory message with installation guidance and exits with code 1,
without consulting any window data (no query) and without printing any
report content; with the binding present the process prints the report and
exits with code 0, also when no window matches. -/
theorem quartz_unavailable_failfast (f : Option String) (ws : List WindowRecord) :
    (program false f ws).2 = 1 ∧
    (program false f ws).1 = quartzErrorLines ∧
    (∀ ws2 : List WindowRecord, program false f ws2 = program false f ws) ∧
    List.contains (program false f ws).1 headerLine = false ∧
    (program true f ws).2 = 0 ∧
    (program true f ws).1 = list_windows f ws := by
  refine ⟨rfl, rfl, fun ws2 => rfl, ?_, rfl, rfl⟩
  show List.contains quartzErrorLines headerLine = false
  decide

/-- Claim C7: absent fields are defaulted instead of raising: an absent title
prints as "Untitled", while an absent owner name or window id makes the
validity filter skip the record; the embedding of list_windows is a total
function, so no record set makes it fail. -/
theorem missing_fields_defaulted (f : Option String) (a : String) (n : Nat) (p : Int)
    (ha : a ≠ "") (hn : n ≠ 0)
    (hf : filterTruthy f = true → pyIn (pyLower (Option.getD f "")) (pyLower a) = true) :
    recordRow f ⟨some a, none, some n, some p⟩ = some (formatRow a "Untitled" n p) ∧
    (∀ w : WindowRecord, w.kCGWindowOwnerName = none → recordRow f w = none) ∧
    (∀ w : WindowRecord, w.kCGWindowNumber = none → recordRow f w = none) := by
  refine ⟨?_, ?_, ?_⟩
  · have h := recordRow_eq_some f ⟨some a, none, some n, some p⟩ ha hn hf
    have ht : truncateTitle "Untitled" = "Untitled" := by decide
    simpa [ht] using h
  · intro w hw
    exact recordRow_invalid f w (Or.inl (by rw [hw]; rfl))
  · intro w hw
    exact recordRow_invalid f w (Or.inr (by rw [hw]; rfl))

/-- Witness for C7: a Safari record without a title prints with "Untitled",
and the ownerless record is skipped. -/
theorem missing_fields_defaulted_witness :
    recordRow none ⟨some "Safari", none, some 42, some 1234⟩ =
      some (formatRow "Safari" "Untitled" 42 1234) ∧
    recordRow none wNoOwner = none :=
  ⟨(missing_fields_defaulted none "Safari" 42 1234 (by decide) (by decide) (by decide)).1,
   (missing_fields_defaulted none "Safari" 42 1234 (by decide) (by decide)
      (by decide)).2.1 wNoOwner rfl⟩

/-- Counterexample to C8 as stated: the claimed layout (exactly 25 + 40 + 8 +
7 column characters with three single-space separators) forces every printed
row to have exactly 83 characters, but the row printed for wWide — whose
owner name is 26 characters long — has 84 characters, because the Python
format specs `<25s`, `8d`, `7d` are minimum widths, not truncating ones. -/
theorem fixed_width_layout_counterexample :
    ¬ ∃ a t i p : String, pyLen a = 25 ∧ pyLen t = 40 ∧ pyLen i = 8 ∧ pyLen p = 7 ∧
      Option.getD (recordRow none wWide) "" =
        a ++ " " ++ t ++ " " ++ i ++ " " ++ p := by
  rintro ⟨a, t, i, p, ha, ht, hi, hp, he⟩
  have hlen := congrArg pyLen he
  rw [pyLen_append, pyLen_append, pyLen_append, pyLen_append, pyLen_append,
    pyLen_append] at hlen
  have h84 : pyLen (Option.getD (recordRow none wWide) "") = 84 := by decide
  have hsp : pyLen " " = 1 := by decide
  rw [h84, ha, ht, hi, hp, hsp] at hlen
  omega

/-- Claim C8 amended: each printed row is the four fields joined by single
spaces, the application name left-justified in a field of width
max(25, its length), the truncated title left-justified in exactly 40
characters, the window id right-justified in width max(8, its digit count)
and the pid right-justified in width max(7, its digit count); the claimed
widths are minimum field widths, exact whenever the values fit them. -/
theorem row_column_layout (f : Option String) (w : WindowRecord) (row : String)
    (h : recordRow f w = some row) :
    row = padRight (Option.getD w.kCGWindowOwnerName "") 25 ++ " " ++
      padRight (truncateTitle (Option.getD w.kCGWindowName "Untitled")) 40 ++ " " ++
      padLeft (toString (Option.getD w.kCGWindowNumber 0)) 8 ++ " " ++
      padLeft (toString (Option.getD w.kCGWindowOwnerPID 0)) 7 ∧
    pyLen (padRight (Option.getD w.kCGWindowOwnerName "") 25) =
      max 25 (pyLen (Option.getD w.kCGWindowOwnerName "")) ∧
    pyLen (padRight (truncateTitle (Option.getD w.kCGWindowName "Untitled")) 40) = 40 ∧
    pyLen (padLeft (toString (Option.getD w.kCGWindowNumber 0)) 8) =
      max 8 (pyLen (toString (Option.getD w.kCGWindowNumber 0))) ∧
    pyLen (padLeft (toString (Option.getD w.kCGWindowOwnerPID 0)) 7) =
      max 7 (pyLen (toString (Option.getD w.kCGWindowOwnerPID 0))) := by
  obtain ⟨-, -, -, hrow⟩ := recordRow_some f w row h
  refine ⟨by rw [hrow]; rfl, pyLen_padRight _ _, ?_, pyLen_padLeft _ _,
    pyLen_padLeft _ _⟩
  rw [pyLen_padRight]
  have hle := pyLen_truncateTitle_le (Option.getD w.kCGWindowName "Untitled")
  omega

/-- Witness for the amended C8 at the Safari record: its title column is
exactly 40 characters wide. -/
theorem row_column_layout_witness :
    pyLen (padRight (truncateTitle (Option.getD wSafari.kCGWindowName "Untitled")) 40)
      = 40 :=
  (row_column_layout none wSafari
    (formatRow "Safari" (truncateTitle "Example") 42 1234) (by decide)).2.2.1

/-- Claim C9: the owner pid is never validated: whether a record is kept
depends only on the filter, the owner name and the window id, a record with
an absent pid is processed exactly like one with pid 0, and its printed row
shows pid 0. -/
theorem pid_not_validated (f : Option String) :
    (∀ w w2 : WindowRecord, w.kCGWindowOwnerName = w2.kCGWindowOwnerName →
      w.kCGWindowNumber = w2.kCGWindowNumber →
      Option.isSome (recordRow f w) = Option.isSome (recordRow f w2)) ∧
    (∀ w : WindowRecord, w.kCGWindowOwnerPID = none →
      recordRow f w = recordRow f { w with kCGWindowOwnerPID := some 0 }) ∧
    (∀ w : WindowRecord, ∀ row : String, w.kCGWindowOwnerPID = none →
      recordRow f w = some row →
      row = formatRow (Option.getD w.kCGWindowOwnerName "")
        (truncateTitle (Option.getD w.kCGWindowName "Untitled"))
        (Option.getD w.kCGWindowNumber 0) 0) := by
  refine ⟨?_, ?_, ?_⟩
  · intro w w2 h1 h2
    rw [recordRow_isSome_eq, recordRow_isSome_eq, h1, h2]
  · intro w hp
    simp only [recordRow]
    rw [hp]
    rfl
  · intro w row hp h
    obtain ⟨-, -, -, hrow⟩ := recordRow_some f w row h
    rw [hrow, hp]
    rfl

/-- Witness for C9: the pid-less Safari record is kept exactly like the full
one and behaves like a pid-0 record. -/
theorem pid_not_validated_witness :
    Option.isSome (recordRow none wNoPid) = Option.isSome (recordRow none wSafari) ∧
    recordRow none wNoPid = recordRow none { wNoPid with kCGWindowOwnerPID := some 0 } :=
  ⟨(pid_not_validated none).1 wNoPid wSafari rfl rfl,
   (pid_not_validated none).2.1 wNoPid rfl⟩

/-- Claim C10: the "Untitled" default applies only to an absent title key; a
record whose title is present but empty is printed with the empty,
space-padded title, which differs from the padded "Untitled". -/
theorem empty_title_not_untitled (f : Option String) (a : String) (n : Nat) (p : Int)
    (ha : a ≠ "") (hn : n ≠ 0)
    (hf : filterTruthy f = true → pyIn (pyLower (Option.getD f "")) (pyLower a) = true) :
    recordRow f ⟨some a, some "", some n, some p⟩ = some (formatRow a "" n p) ∧
    padRight "" 40 ≠ padRight "Untitled" 40 := by
  constructor
  · have h := recordRow_eq_some f ⟨some a, some "", some n, some p⟩ ha hn hf
    have ht : truncateTitle "" = "" := by decide
    simpa [ht] using h
  · decide

/-- Witness for C10 at the Safari record with an empty title. -/
theorem empty_title_not_untitled_witness :
    recordRow none ⟨some "Safari", some "", some 42, some 1234⟩ =
      some (formatRow "Safari" "" 42 1234) :=
  (empty_title_not_untitled none "Safari" 42 1234 (by decide) (by decide) (by decide)).1

end ListWindows
